import Mathlib

/-!
Verification of the live detection session pipeline of the
`diu-id-detection` frontend: a shallow embedding of the capture
scheduler, detection session controller, geometry mapper, overlay label
placement and analytics aggregation, with theorems settling the spec's
claims about them. JavaScript numbers are modelled as rationals; where a
claim turns on IEEE division by zero the relevant arithmetic is modelled
with an explicit `JSNum` type carrying infinities and NaN.
-/

namespace DiuId

/-- `BoundingBox` from `types/detection.ts`: pixel coordinates in the
source image's native resolution. -/
structure BoundingBox where
  x1 : ℚ
  y1 : ℚ
  x2 : ℚ
  y2 : ℚ
deriving DecidableEq, Repr

/-- `Detection` from `types/detection.ts`. -/
structure Detection where
  bbox : BoundingBox
  confidence : ℚ
  class_id : ℕ
  class_name : String
deriving DecidableEq, Repr

/-- `DetectionResponse` from `types/detection.ts`; `message` is the
optional field `message?: string`. -/
structure DetectionResponse where
  success : Bool
  detections : List Detection
  inference_time_ms : ℚ
  image_width : ℚ
  image_height : ℚ
  message : Option String
deriving DecidableEq, Repr

/-- `DailyData` from `services/api.ts`. -/
structure DailyData where
  date : String
  admin_count : ℕ
  student_count : ℕ
  teacher_count : ℕ
  total_detections : ℕ
  request_count : ℕ
deriving DecidableEq, Repr

/-- `TodayStats` from `services/api.ts` (the fields the dashboard's
top-class computation reads). -/
structure TodayStats where
  admin_count : ℕ
  student_count : ℕ
  teacher_count : ℕ
deriving DecidableEq, Repr

/-! ## Analytics aggregation (`AnalyticsDashboard.tsx`) -/

/-- The "Top Class %" figure of `AnalyticsDashboard.tsx`:
`total > 0 ? Math.round((Math.max(a, s, t) / (a + s + t)) * 100) : 0`
over `todayStats.admin_count / student_count / teacher_count`.
`Math.round` on a nonnegative value is `⌊x + 1/2⌋`, which is Mathlib's
`round` on `ℚ`. -/
def topClassPercent (t : TodayStats) : ℤ :=
  if t.admin_count + t.student_count + t.teacher_count > 0 then
    round (((max t.admin_count (max t.student_count t.teacher_count) : ℚ) /
      ((t.admin_count + t.student_count + t.teacher_count : ℕ) : ℚ)) * 100)
  else 0

/-- `maxDaily` of `AnalyticsDashboard.tsx`:
`Math.max(...(dailyData.length > 0 ? dailyData.map(d => d.total_detections) : [1]), 1)`. -/
def maxDaily (data : List DailyData) : ℕ :=
  ((if data.length > 0 then data.map (fun d => d.total_detections) else [1]).foldl max 1)

/-- The bar-height fraction of the daily chart:
`(day.total_detections / maxDaily)` (the code renders it as a CSS
percentage `* 100 %`). The divisor is `maxDaily` over the whole fetched
list. -/
def barFraction (day : DailyData) (data : List DailyData) : ℚ :=
  (day.total_detections : ℚ) / (maxDaily data : ℚ)

/-- The window the daily chart actually renders:
`dailyData.slice(-7)`, the last seven entries. -/
def renderedWindow (data : List DailyData) : List DailyData :=
  data.drop (data.length - 7)

/-- Maximum of a list of naturals, `0` for the empty list; the spec-side
`maxOverWindow` before the `max(1, ·)` guard. -/
def listMax (l : List ℕ) : ℕ :=
  l.foldr max 0

/-! ## Results panel (`ResultsPanel.tsx`) -/

/-- `avgConfidence` of `ResultsPanel.tsx`:
`detections.length > 0 ? detections.reduce((sum, d) => sum + d.confidence, 0) / detections.length : 0`. -/
def avgConfidence (detections : List Detection) : ℚ :=
  if detections.length > 0 then
    (detections.foldl (fun sum d => sum + d.confidence) 0) / (detections.length : ℚ)
  else 0

/-! ## Detection session controller (`App.tsx`, `src/unnamed/part_000`)

The `App` component owns the displayed result state. `handleFileSelect`
and `handleWebcamCapture` each split into a synchronous begin phase
(before the `await` of the detection call) and a completion phase (the
`then` / `else` / `catch` branches followed by the `finally` clause).
Between the two phases other events of the cooperative event loop — in
particular `switchMode` — may run. Each phase also returns the list of
values written to the `isLoading` flag, so that loading-flag discipline
can be stated. -/

/-- `DetectionMode` from `types/detection.ts`. -/
inductive Mode where
  | upload
  | webcam
  | analytics
deriving DecidableEq, Repr

/-- The `App` component's state hooks. -/
structure AppState where
  mode : Mode
  isModelLoaded : Bool
  isLoading : Bool
  error : Option String
  isAutoCapture : Bool
  imageSrc : Option String
  detections : List Detection
  inferenceTime : ℚ
  imageWidth : ℚ
  imageHeight : ℚ
deriving DecidableEq, Repr

/-- The `useState` initial values of `App`. -/
def initApp : AppState :=
  { mode := .upload
    isModelLoaded := false
    isLoading := false
    error := none
    isAutoCapture := false
    imageSrc := none
    detections := []
    inferenceTime := 0
    imageWidth := 0
    imageHeight := 0 }

/-- `switchMode` of `App`: sets the mode and clears `imageSrc`,
`detections`, `error` and `isAutoCapture`. -/
def switchMode (m : Mode) (s : AppState) : AppState :=
  { s with
    mode := m
    imageSrc := none
    detections := []
    error := none
    isAutoCapture := false }

/-- Outcome of one detection call: either a `DetectionResponse` from the
detector, or a thrown transport error (`some msg` when the thrown value
is an `Error`, `none` otherwise). -/
inductive Outcome where
  | resp (r : DetectionResponse)
  | thrown (m : Option String)
deriving DecidableEq, Repr

/-- `result.message || 'Detection failed'`: JavaScript `||` falls back
when `message` is `undefined` or the empty string. -/
def msgOr (m : Option String) : String :=
  match m with
  | some s => if s = "" then "Detection failed" else s
  | none => "Detection failed"

/-- `err instanceof Error ? err.message : 'Failed to run detection'`. -/
def thrownMsg (m : Option String) : String :=
  m.getD "Failed to run detection"

/-- Synchronous prefix of `handleWebcamCapture`:
`setIsLoading(true); setError(null); setImageSrc(base64Image)`.
The second component records the writes to the loading flag. -/
def webcamBegin (s : AppState) (base64Image : String) : AppState × List Bool :=
  ({ s with isLoading := true, error := none, imageSrc := some base64Image }, [true])

/-- Completion phase of `handleWebcamCapture`: the `success` branch
stores the new result, the `else` branch records the message as the
error, the `catch` branch records the transport error; the `finally`
clause then clears the loading flag on every path. -/
def webcamFinish (s : AppState) (o : Outcome) : AppState × List Bool :=
  let s1 :=
    match o with
    | .resp r =>
      if r.success then
        { s with
          detections := r.detections
          inferenceTime := r.inference_time_ms
          imageWidth := r.image_width
          imageHeight := r.image_height }
      else { s with error := some (msgOr r.message) }
    | .thrown m => { s with error := some (thrownMsg m) }
  ({ s1 with isLoading := false }, [false])

/-- Synchronous prefix of `handleFileSelect`:
`setIsLoading(true); setError(null)` (the `FileReader` preview callback
is asynchronous and modelled separately). -/
def fileBegin (s : AppState) : AppState × List Bool :=
  ({ s with isLoading := true, error := none }, [true])

/-- The `reader.onload` callback of `handleFileSelect`, which stores the
data-URL preview. -/
def fileReaderLoad (s : AppState) (preview : String) : AppState :=
  { s with imageSrc := some preview }

/-- Completion phase of `handleFileSelect`; its branches are literally
those of `handleWebcamCapture`'s completion. -/
def fileFinish (s : AppState) (o : Outcome) : AppState × List Bool :=
  let s1 :=
    match o with
    | .resp r =>
      if r.success then
        { s with
          detections := r.detections
          inferenceTime := r.inference_time_ms
          imageWidth := r.image_width
          imageHeight := r.image_height }
      else { s with error := some (msgOr r.message) }
    | .thrown m => { s with error := some (thrownMsg m) }
  ({ s1 with isLoading := false }, [false])

/-! ## Capture scheduler (`WebcamCapture.tsx` + `App.tsx` loading flag)

The scheduling guard is spread over the capture button's
`disabled={isLoading}` attribute, the auto-capture effect — whose
interval is armed exactly when `isAutoCapture && !isLoading &&
hasPermission` — and the `finally { setIsLoading(false) }` release in
`handleWebcamCapture`. The webcam UI (and with it the capture button and
the `webcamRef`) is rendered only when `hasPermission` is `true`.
Events run atomically on the single-threaded event loop. `inFlight`
counts detection requests issued but not yet completed; `accepted`
counts invocations of the capture callback (`onCapture`). A trigger's
screenshot may be `none` (`getScreenshot()` returned `null`), in which
case `onCapture` is not invoked. -/

structure SchedState where
  isLoading : Bool
  isAutoCapture : Bool
  hasPermission : Bool
  inFlight : ℕ
  accepted : ℕ
deriving DecidableEq, Repr

/-- Scheduler events: a manual capture-button press, an auto-capture
interval tick, the auto-capture toggle, and the completion (`finally`)
of an in-flight request. -/
inductive SchedEvent where
  | manual (shot : Option String)
  | tick (shot : Option String)
  | toggleAuto
  | complete
deriving DecidableEq, Repr

/-- Body of `capture()`: take a screenshot and, when it is non-null,
invoke `onCapture`, i.e. `handleWebcamCapture`, whose synchronous prefix
sets the loading flag and issues the request. -/
def doCapture (shot : Option String) (s : SchedState) : SchedState :=
  match shot with
  | some _ =>
    { s with
      isLoading := true
      inFlight := s.inFlight + 1
      accepted := s.accepted + 1 }
  | none => s

/-- One scheduler step. A manual press reaches `capture()` only when the
button is rendered (`hasPermission`) and not `disabled` (`!isLoading`);
a tick fires only while the interval is armed (`isAutoCapture &&
!isLoading && hasPermission`); `complete` is the `finally` clause of an
in-flight request. -/
def schedStep (s : SchedState) (e : SchedEvent) : SchedState :=
  match e with
  | .manual shot =>
    if s.hasPermission && !s.isLoading then doCapture shot s else s
  | .tick shot =>
    if s.isAutoCapture && !s.isLoading && s.hasPermission then doCapture shot s else s
  | .toggleAuto => { s with isAutoCapture := !s.isAutoCapture }
  | .complete =>
    if s.inFlight = 0 then s
    else { s with isLoading := false, inFlight := s.inFlight - 1 }

/-- Initial scheduler state: nothing loading, auto-capture off, no
request in flight. -/
def initSched (hasPermission : Bool) : SchedState :=
  { isLoading := false
    isAutoCapture := false
    hasPermission := hasPermission
    inFlight := 0
    accepted := 0 }

/-- Run the scheduler over a list of events. -/
def schedRun (s : SchedState) (es : List SchedEvent) : SchedState :=
  es.foldl schedStep s

/-- The backpressure invariant: a request is in flight exactly while the
loading flag is set. -/
def schedInv (s : SchedState) : Prop :=
  s.inFlight = (if s.isLoading then 1 else 0)

/-- A trigger event: manual press or auto-capture tick. -/
def isTrigger : SchedEvent → Prop
  | .manual _ => True
  | .tick _ => True
  | .toggleAuto => False
  | .complete => False

/-! ## Geometry mapper (`DetectionCanvas.tsx`, `src/unnamed/part_001`)

The render pass maps source-resolution boxes into display space with
`scaleX = displayWidth / imageWidth`, `scaleY = displayHeight /
imageHeight` and coordinate-wise multiplication. The divisions and
multiplications are JavaScript float operations; to settle what happens
on degenerate source dimensions they are modelled on `JSNum`, rational
numbers extended with the two infinities and NaN (negative zero is not
distinguished). -/

inductive JSNum where
  | fin : ℚ → JSNum
  | posInf : JSNum
  | negInf : JSNum
  | nan : JSNum
deriving DecidableEq, Repr

/-- JavaScript float multiplication on `JSNum`. -/
def jmul : JSNum → JSNum → JSNum
  | .nan, _ => .nan
  | _, .nan => .nan
  | .fin a, .fin b => .fin (a * b)
  | .fin a, .posInf => if a = 0 then .nan else if 0 < a then .posInf else .negInf
  | .fin a, .negInf => if a = 0 then .nan else if 0 < a then .negInf else .posInf
  | .posInf, .fin b => if b = 0 then .nan else if 0 < b then .posInf else .negInf
  | .negInf, .fin b => if b = 0 then .nan else if 0 < b then .negInf else .posInf
  | .posInf, .posInf => .posInf
  | .posInf, .negInf => .negInf
  | .negInf, .posInf => .negInf
  | .negInf, .negInf => .posInf

/-- JavaScript float division on `JSNum`: a nonzero finite value divided
by zero gives a signed infinity, `0 / 0` gives NaN. -/
def jdiv : JSNum → JSNum → JSNum
  | .nan, _ => .nan
  | _, .nan => .nan
  | .fin a, .fin b =>
    if b = 0 then (if a = 0 then .nan else if 0 < a then .posInf else .negInf)
    else .fin (a / b)
  | .fin _, .posInf => .fin 0
  | .fin _, .negInf => .fin 0
  | .posInf, .fin b => if 0 ≤ b then .posInf else .negInf
  | .negInf, .fin b => if 0 ≤ b then .negInf else .posInf
  | .posInf, .posInf => .nan
  | .posInf, .negInf => .nan
  | .negInf, .posInf => .nan
  | .negInf, .negInf => .nan

/-- A display-space box as produced by the render pass. -/
structure JSBox where
  x1 : JSNum
  y1 : JSNum
  x2 : JSNum
  y2 : JSNum
deriving DecidableEq, Repr

/-- The geometry mapping of `img.onload` in `DetectionCanvas`:
`scaleX = displayWidth / imageWidth; scaleY = displayHeight / imageHeight;`
then each box corner is multiplied by the scale factors. -/
def mapBoxJS (b : BoundingBox) (srcW srcH dstW dstH : ℚ) : JSBox :=
  let scaleX := jdiv (.fin dstW) (.fin srcW)
  let scaleY := jdiv (.fin dstH) (.fin srcH)
  { x1 := jmul (.fin b.x1) scaleX
    y1 := jmul (.fin b.y1) scaleY
    x2 := jmul (.fin b.x2) scaleX
    y2 := jmul (.fin b.y2) scaleY }

/-- Display height computed by `img.onload`:
`displayHeight = containerWidth / (img.width / img.height)` — the
source aspect ratio is preserved. -/
def displayHeightQ (containerWidth imgW imgH : ℚ) : ℚ :=
  containerWidth / (imgW / imgH)

/-- Error taxonomy item of the spec's render pass. -/
inductive GeomErr where
  | invalidGeometry
deriving DecidableEq, Repr

/-- The geometry mapper as the spec words it (for comparison with
`mapBoxJS`): degenerate source dimensions fail with `InvalidGeometry`
instead of producing non-finite coordinates. -/
def mapBoxSpec (b : BoundingBox) (srcW srcH dstW dstH : ℚ) :
    Except GeomErr BoundingBox :=
  if srcW ≤ 0 ∨ srcH ≤ 0 then .error .invalidGeometry
  else
    .ok
      { x1 := b.x1 * (dstW / srcW)
        y1 := b.y1 * (dstH / srcH)
        x2 := b.x2 * (dstW / srcW)
        y2 := b.y2 * (dstH / srcH) }

/-! ## Overlay label placement (`DetectionCanvas.tsx`)

The label pill is drawn as a rounded rectangle whose path runs from
`y1 - labelHeight` (top) to `y1` (bottom) and from `x1` (left) to
`x1 + labelWidth` (right); the text width comes from `measureText` and
is a parameter here. -/

/-- `labelHeight = displayWidth < 400 ? 22 : 28`. -/
def labelHeight (displayWidth : ℚ) : ℚ :=
  if displayWidth < 400 then 22 else 28

/-- `labelPadding = displayWidth < 400 ? 8 : 12`. -/
def labelPadding (displayWidth : ℚ) : ℚ :=
  if displayWidth < 400 then 8 else 12

/-- An axis-aligned rectangle on the drawing surface. -/
structure LabelRect where
  left : ℚ
  top : ℚ
  right : ℚ
  bottom : ℚ
deriving DecidableEq, Repr

/-- The label pill's rectangle as drawn by `DetectionCanvas`:
`labelWidth = textWidth + labelPadding * 2`, top edge at
`y1 - labelHeight`, bottom edge at `y1`, left edge at `x1`. -/
def labelRect (displayWidth x1 y1 textWidth : ℚ) : LabelRect :=
  let lh := labelHeight displayWidth
  let lw := textWidth + labelPadding displayWidth * 2
  { left := x1, top := y1 - lh, right := x1 + lw, bottom := y1 }

/-! ## Concrete sample values used by counterexamples and witnesses -/

/-- A sample webcam detection. -/
def c1Det : Detection :=
  { bbox := { x1 := 100, y1 := 50, x2 := 300, y2 := 250 }
    confidence := 9 / 10
    class_id := 0
    class_name := "student_id" }

/-- A successful detection response carrying `c1Det`. -/
def c1Resp : DetectionResponse :=
  { success := true
    detections := [c1Det]
    inference_time_ms := 5
    image_width := 640
    image_height := 480
    message := none }

/-- The session state after a webcam capture was sent and the user then
switched the mode to upload, before the response completed. -/
def c1Switched : AppState :=
  switchMode .upload (webcamBegin initApp "frame").1

/-- A failed detection response whose optional `message` field is
absent. -/
def c5FailResp : DetectionResponse :=
  { success := false
    detections := []
    inference_time_ms := 0
    image_width := 0
    image_height := 0
    message := none }

/-- A daily bucket with a single detection. -/
def c8Day : DailyData :=
  { date := "d7", admin_count := 0, student_count := 0, teacher_count := 0
    total_detections := 1, request_count := 0 }

/-- An eight-day fetched list whose maximum (10) lies in the first
entry, outside the rendered last-seven window. -/
def c8Data : List DailyData :=
  [{ date := "d0", admin_count := 0, student_count := 0, teacher_count := 0
     total_detections := 10, request_count := 0 },
   { date := "d1", admin_count := 0, student_count := 0, teacher_count := 0
     total_detections := 1, request_count := 0 },
   { date := "d2", admin_count := 0, student_count := 0, teacher_count := 0
     total_detections := 1, request_count := 0 },
   { date := "d3", admin_count := 0, student_count := 0, teacher_count := 0
     total_detections := 1, request_count := 0 },
   { date := "d4", admin_count := 0, student_count := 0, teacher_count := 0
     total_detections := 1, request_count := 0 },
   { date := "d5", admin_count := 0, student_count := 0, teacher_count := 0
     total_detections := 1, request_count := 0 },
   { date := "d6", admin_count := 0, student_count := 0, teacher_count := 0
     total_detections := 1, request_count := 0 },
   { date := "d7", admin_count := 0, student_count := 0, teacher_count := 0
     total_detections := 1, request_count := 0 }]

/-- Two sample detections for the results panel. -/
def c10Dets : List Detection :=
  [{ bbox := { x1 := 0, y1 := 0, x2 := 1, y2 := 1 }
     confidence := 1 / 2, class_id := 0, class_name := "admin" },
   { bbox := { x1 := 0, y1 := 0, x2 := 2, y2 := 2 }
     confidence := 1, class_id := 1, class_name := "student" }]

/-! ## Helper lemmas -/

theorem foldl_max_eq (l : List ℕ) : ∀ a : ℕ, l.foldl max a = max a (listMax l) := by
  induction l with
  | nil => intro a; simp [listMax]
  | cons x xs ih =>
    intro a
    have hcons : listMax (x :: xs) = max x (listMax xs) := rfl
    simp only [List.foldl_cons, hcons, ih (max a x), max_assoc]

theorem maxDaily_eq (data : List DailyData) :
    maxDaily data = max 1 (listMax (data.map (fun d => d.total_detections))) := by
  unfold maxDaily
  rcases data with _ | ⟨d, ds⟩
  · simp [listMax]
  · simp only [List.length_cons, Nat.succ_pos, if_pos]
    exact foldl_max_eq _ 1

theorem foldl_add_confidence (ds : List Detection) :
    ∀ a : ℚ, ds.foldl (fun sum d => sum + d.confidence) a =
      a + (ds.map (fun d => d.confidence)).sum := by
  induction ds with
  | nil => intro a; simp
  | cons d tl ih =>
    intro a
    simp only [List.foldl_cons, List.map_cons, List.sum_cons, ih (a + d.confidence)]
    ring

theorem schedStep_inv (s : SchedState) (e : SchedEvent) (h : schedInv s) :
    schedInv (schedStep s e) := by
  obtain ⟨l, auto, p, f, acc⟩ := s
  unfold schedInv at h ⊢
  cases e with
  | manual shot =>
    cases shot <;> cases l <;> cases p <;> simp_all [schedStep, doCapture]
  | tick shot =>
    cases shot <;> cases l <;> cases p <;> cases auto <;>
      simp_all [schedStep, doCapture]
  | toggleAuto => simpa [schedStep] using h
  | complete =>
    cases l <;> simp_all [schedStep]

theorem schedRun_inv (es : List SchedEvent) :
    ∀ s : SchedState, schedInv s → schedInv (schedRun s es) := by
  induction es with
  | nil => intro s h; exact h
  | cons e tl ih =>
    intro s h
    exact ih (schedStep s e) (schedStep_inv s e h)

theorem initSched_inv (hp : Bool) : schedInv (initSched hp) := rfl

/-! ## Claim theorems -/

/-- Claim C1, counterexample: the code has no generation counter, so a
webcam detection response that completes after `switchMode` has reset
the session is applied anyway — here it overwrites the cleared
detections with the stale batch, so applying it is not a no-op. -/
theorem c1_counterexample :
    (webcamFinish c1Switched (.resp c1Resp)).1.detections ≠ c1Switched.detections := by
  simp [webcamFinish, c1Switched, c1Resp, switchMode, webcamBegin, initApp]

/-- Claim C1 (amended): `handleWebcamCapture` applies every completed
successful response unconditionally — there is no generation counter or
staleness check — so even after an intervening `switchMode` the
displayed detections, image dimensions and inference time are
overwritten with the response's values. -/
theorem c1_stale_response_applied (s : AppState) (m : Mode) (img : String)
    (r : DetectionResponse) (h : r.success = true) :
    (webcamFinish (switchMode m (webcamBegin s img).1) (.resp r)).1.detections =
        r.detections ∧
    (webcamFinish (switchMode m (webcamBegin s img).1) (.resp r)).1.imageWidth =
        r.image_width ∧
    (webcamFinish (switchMode m (webcamBegin s img).1) (.resp r)).1.imageHeight =
        r.image_height ∧
    (webcamFinish (switchMode m (webcamBegin s img).1) (.resp r)).1.inferenceTime =
        r.inference_time_ms := by
  simp [webcamFinish, h]

/-- Claim C1, witness for `c1_stale_response_applied` at the concrete
stale completion. -/
theorem c1_stale_response_applied_witness :
    c1Resp.success = true ∧
    (webcamFinish (switchMode .upload (webcamBegin initApp "frame").1)
        (.resp c1Resp)).1.detections = c1Resp.detections :=
  ⟨rfl, (c1_stale_response_applied initApp .upload "frame" c1Resp rfl).1⟩

/-- Claim C2: in every reachable scheduler state at most one detection
request is in flight; while the loading flag is set every trigger
(manual press or auto-capture tick) is a no-op; and from an idle state
with camera permission, two manual triggers without an intervening
completion accept exactly one capture, leaving exactly one request in
flight. -/
theorem c2_scheduler_single_flight (hp : Bool) (es : List SchedEvent)
    (img img2 : String) :
    (schedRun (initSched hp) es).inFlight ≤ 1 ∧
    ((schedRun (initSched hp) es).isLoading = true →
      ∀ e, isTrigger e →
        schedStep (schedRun (initSched hp) es) e = schedRun (initSched hp) es) ∧
    ((schedRun (initSched hp) es).isLoading = false →
      (schedRun (initSched hp) es).hasPermission = true →
      (schedStep (schedStep (schedRun (initSched hp) es) (.manual (some img)))
          (.manual (some img2))).accepted =
        (schedRun (initSched hp) es).accepted + 1 ∧
      (schedStep (schedStep (schedRun (initSched hp) es) (.manual (some img)))
          (.manual (some img2))).inFlight = 1) := by
  have hinv : schedInv (schedRun (initSched hp) es) :=
    schedRun_inv es (initSched hp) (initSched_inv hp)
  generalize hgen : schedRun (initSched hp) es = s at hinv ⊢
  obtain ⟨l, auto, p, f, acc⟩ := s
  unfold schedInv at hinv
  refine ⟨?_, ?_, ?_⟩
  · cases l <;> simp_all
  · intro hl e he
    cases l with
    | false => simp at hl
    | true =>
      cases e with
      | manual shot => simp [schedStep]
      | tick shot => simp [schedStep]
      | toggleAuto => exact he.elim
      | complete => exact he.elim
  · intro hl hp'
    cases l with
    | true => simp at hl
    | false =>
      cases p with
      | false => simp at hp'
      | true =>
        simp only [if_neg Bool.false_ne_true] at hinv
        subst hinv
        simp [schedStep, doCapture]

/-- Claim C2, witness for `c2_scheduler_single_flight`: from the initial
idle state two manual triggers accept exactly one capture, and after an
accepted capture an auto-capture tick is a no-op. -/
theorem c2_scheduler_single_flight_witness :
    (schedRun (initSched true) []).isLoading = false ∧
    (schedRun (initSched true) []).hasPermission = true ∧
    (schedStep (schedStep (schedRun (initSched true) []) (.manual (some "a")))
        (.manual (some "b"))).accepted = (schedRun (initSched true) []).accepted + 1 ∧
    (schedRun (initSched true) [.manual (some "x")]).isLoading = true ∧
    schedStep (schedRun (initSched true) [.manual (some "x")]) (.tick (some "y")) =
      schedRun (initSched true) [.manual (some "x")] :=
  ⟨rfl, rfl,
    ((c2_scheduler_single_flight true [] "a" "b").2.2 rfl rfl).1,
    rfl,
    (c2_scheduler_single_flight true [.manual (some "x")] "a" "b").2.1 rfl
      (.tick (some "y")) trivial⟩

/-- Claim C3: for positive source and destination dimensions the
geometry mapper returns the box scaled coordinate-wise by
`dstW / srcW` and `dstH / srcH`; for source 640×480 and container width
320 the display height is 240 and the box (100, 50, 300, 250) maps to
(50, 25, 150, 125). -/
theorem c3_geometry_mapper :
    (∀ (b : BoundingBox) (srcW srcH dstW dstH : ℚ), 0 < srcW → 0 < srcH →
      mapBoxJS b srcW srcH dstW dstH =
        { x1 := .fin (b.x1 * (dstW / srcW)), y1 := .fin (b.y1 * (dstH / srcH)),
          x2 := .fin (b.x2 * (dstW / srcW)), y2 := .fin (b.y2 * (dstH / srcH)) }) ∧
    displayHeightQ 320 640 480 = 240 ∧
    mapBoxJS { x1 := 100, y1 := 50, x2 := 300, y2 := 250 } 640 480 320 240 =
      { x1 := .fin 50, y1 := .fin 25, x2 := .fin 150, y2 := .fin 125 } := by
  refine ⟨?_, by norm_num [displayHeightQ], ?_⟩
  · intro b srcW srcH dstW dstH hW hH
    simp [mapBoxJS, jdiv, jmul, hW.ne', hH.ne']
  · have h : mapBoxJS { x1 := 100, y1 := 50, x2 := 300, y2 := 250 } 640 480 320 240 =
        { x1 := .fin (100 * ((320 : ℚ) / 640)), y1 := .fin (50 * ((240 : ℚ) / 480)),
          x2 := .fin (300 * ((320 : ℚ) / 640)), y2 := .fin (250 * ((240 : ℚ) / 480)) } := by
      simp [mapBoxJS, jdiv, jmul]
    rw [h]
    norm_num

/-- Claim C3, witness for `c3_geometry_mapper` at the spec's end-to-end
example. -/
theorem c3_geometry_mapper_witness :
    (0 : ℚ) < 640 ∧ (0 : ℚ) < 480 ∧
    mapBoxJS { x1 := 100, y1 := 50, x2 := 300, y2 := 250 } 640 480 320 240 =
      { x1 := .fin (100 * ((320 : ℚ) / 640)), y1 := .fin (50 * ((240 : ℚ) / 480)),
        x2 := .fin (300 * ((320 : ℚ) / 640)), y2 := .fin (250 * ((240 : ℚ) / 480)) } :=
  ⟨by norm_num, by norm_num,
    c3_geometry_mapper.1 { x1 := 100, y1 := 50, x2 := 300, y2 := 250 }
      640 480 320 240 (by norm_num) (by norm_num)⟩

/-- Claim C4, counterexample: at the degenerate source width 0 the
spec-worded mapper fails with `InvalidGeometry`, but the code's render
pass has no such check and computes an Infinity coordinate instead
(`x1 * (dstW / 0) = +Infinity`). -/
theorem c4_counterexample :
    mapBoxSpec { x1 := 100, y1 := 50, x2 := 300, y2 := 250 } 0 480 320 240 =
      .error .invalidGeometry ∧
    (mapBoxJS { x1 := 100, y1 := 50, x2 := 300, y2 := 250 } 0 480 320 240).x1 =
      .posInf := by
  constructor
  · simp [mapBoxSpec]
  · norm_num [mapBoxJS, jdiv, jmul]

/-- Claim C4 (amended): the render pass performs no degenerate-dimension
check; with source width 0 (and positive `x1` and `dstW`) JavaScript
division by zero makes the mapped `x1` coordinate `+Infinity`, and no
`InvalidGeometry` error is raised. -/
theorem c4_degenerate_dims_produce_infinity (b : BoundingBox)
    (srcH dstW dstH : ℚ) (hx : 0 < b.x1) (hw : 0 < dstW) :
    (mapBoxJS b 0 srcH dstW dstH).x1 = .posInf := by
  simp [mapBoxJS, jdiv, jmul, hx, hw, hx.ne', hw.ne']

/-- Claim C4, witness for `c4_degenerate_dims_produce_infinity` at a
concrete degenerate input. -/
theorem c4_degenerate_dims_witness :
    (0 : ℚ) < 100 ∧ (0 : ℚ) < 320 ∧
    (mapBoxJS { x1 := 100, y1 := 50, x2 := 300, y2 := 250 } 0 480 320 240).x1 =
      .posInf :=
  ⟨by norm_num, by norm_num,
    c4_degenerate_dims_produce_infinity { x1 := 100, y1 := 50, x2 := 300, y2 := 250 }
      480 320 240 (by norm_num) (by norm_num)⟩

/-- Claim C5, counterexample: for a failed response whose optional
`message` field is absent the controller records the fallback text
`"Detection failed"`, not the response's message field. -/
theorem c5_counterexample :
    (webcamFinish initApp (.resp c5FailResp)).1.error ≠ c5FailResp.message := by
  simp [webcamFinish, c5FailResp, msgOr, initApp]

/-- Claim C5 (amended): on a response with `success = false` both
handlers leave detections, image dimensions and inference time
unchanged and record `message || 'Detection failed'` — the message when
present and non-empty, the fallback text otherwise — as the current
error. -/
theorem c5_failure_keeps_result (s : AppState) (r : DetectionResponse)
    (h : r.success = false) :
    ((webcamFinish s (.resp r)).1.detections = s.detections ∧
      (webcamFinish s (.resp r)).1.imageWidth = s.imageWidth ∧
      (webcamFinish s (.resp r)).1.imageHeight = s.imageHeight ∧
      (webcamFinish s (.resp r)).1.inferenceTime = s.inferenceTime ∧
      (webcamFinish s (.resp r)).1.error = some (msgOr r.message)) ∧
    ((fileFinish s (.resp r)).1.detections = s.detections ∧
      (fileFinish s (.resp r)).1.imageWidth = s.imageWidth ∧
      (fileFinish s (.resp r)).1.imageHeight = s.imageHeight ∧
      (fileFinish s (.resp r)).1.inferenceTime = s.inferenceTime ∧
      (fileFinish s (.resp r)).1.error = some (msgOr r.message)) := by
  simp [webcamFinish, fileFinish, h]

/-- Claim C5, witness for `c5_failure_keeps_result` at a failed response
carrying a message. -/
theorem c5_failure_keeps_result_witness :
    ({ success := false, detections := [], inference_time_ms := 0, image_width := 0,
       image_height := 0, message := some "boom" } : DetectionResponse).success =
      false ∧
    (webcamFinish initApp
        (.resp { success := false, detections := [], inference_time_ms := 0,
                 image_width := 0, image_height := 0,
                 message := some "boom" })).1.error =
      some (msgOr (some "boom")) :=
  ⟨rfl,
    ((c5_failure_keeps_result initApp
          { success := false, detections := [], inference_time_ms := 0,
            image_width := 0, image_height := 0, message := some "boom" }
          rfl).1).2.2.2.2⟩

/-- Claim C6: each accepted capture sets the loading flag in its
synchronous prefix, and over every completion path — success, inference
failure or transport failure — the full sequence of loading-flag writes
is exactly `[true, false]`: set once, cleared exactly once, and the
final state's flag is clear. Both handlers satisfy it. -/
theorem c6_loading_flag_discipline (s : AppState) (img : String) (o : Outcome) :
    (webcamBegin s img).1.isLoading = true ∧
    (webcamBegin s img).2 ++ (webcamFinish (webcamBegin s img).1 o).2 =
      [true, false] ∧
    (webcamFinish (webcamBegin s img).1 o).1.isLoading = false ∧
    (fileBegin s).1.isLoading = true ∧
    (fileBegin s).2 ++ (fileFinish (fileBegin s).1 o).2 = [true, false] ∧
    (fileFinish (fileBegin s).1 o).1.isLoading = false := by
  cases o <;> simp [webcamBegin, webcamFinish, fileBegin, fileFinish]

/-- Claim C7: the dashboard's top-class figure equals
`round(100 * max(a, s, t) / total)` when `total > 0` and `0` when
`total = 0`, and the spec's example `{admin 2, student 6, teacher 2}`
yields 60. -/
theorem c7_top_class_percent :
    (∀ t : TodayStats,
      topClassPercent t =
        if t.admin_count + t.student_count + t.teacher_count > 0 then
          round ((100 * (max t.admin_count (max t.student_count t.teacher_count) : ℚ)) /
            ((t.admin_count + t.student_count + t.teacher_count : ℕ) : ℚ))
        else 0) ∧
    topClassPercent { admin_count := 2, student_count := 6, teacher_count := 2 } = 60 := by
  constructor
  · intro t
    unfold topClassPercent
    split
    · congr 1
      rw [div_mul_eq_mul_div, mul_comm]
    · rfl
  · have hmax : (max 2 (max 6 2) : ℕ) = 6 := rfl
    unfold topClassPercent
    simp only [hmax]
    norm_num

/-- Claim C8, counterexample: with eight fetched daily buckets whose
maximum (10) lies outside the rendered last-seven window, the bar for a
rendered day of total 1 has code fraction `1 / 10`, not the claimed
`1 / max(1, maxOverRenderedWindow) = 1`. -/
theorem c8_counterexample :
    barFraction c8Day c8Data ≠
      (c8Day.total_detections : ℚ) /
        ((max 1 (listMax ((renderedWindow c8Data).map
          (fun d => d.total_detections))) : ℕ) : ℚ) := by
  have h1 : maxDaily c8Data = 10 := rfl
  have h2 :
      (max 1 (listMax ((renderedWindow c8Data).map (fun d => d.total_detections))) : ℕ) =
        1 := rfl
  have h3 : c8Day.total_detections = 1 := rfl
  unfold barFraction
  rw [h1, h2, h3]
  norm_num

/-- Claim C8 (amended): every bar's height fraction equals
`day.total_detections / max(1, maxOverFetchedList)`, where the divisor
is the maximum over the entire fetched daily list (minimum 1, so an
all-zero list causes no division by zero) — even though the chart
renders only the last seven entries. -/
theorem c8_bar_fraction (day : DailyData) (data : List DailyData) :
    barFraction day data =
      (day.total_detections : ℚ) /
        ((max 1 (listMax (data.map (fun d => d.total_detections))) : ℕ) : ℚ) ∧
    0 < maxDaily data := by
  constructor
  · unfold barFraction
    rw [maxDaily_eq]
  · rw [maxDaily_eq]
    exact lt_of_lt_of_le Nat.one_pos (le_max_left _ _)

/-- Claim C9, counterexample: for a mapped box whose top edge is at the
surface top (`y1 = 0`, so `y1 - labelHeight = -28 < 0`) the label pill
is still drawn with its top edge at `-28`, above the drawing surface —
it is clipped, not repositioned below the top-left corner. -/
theorem c9_counterexample :
    (0 : ℚ) - labelHeight 500 < 0 ∧
    (labelRect 500 10 0 60).top = -28 ∧
    ¬ (0 ≤ (labelRect 500 10 0 60).top) := by
  norm_num [labelRect, labelHeight, labelPadding]

/-- Claim C9 (amended): the label pill's top edge is always
`y1 - labelHeight`, with no clamping; whenever `y1 < labelHeight` the
pill extends above the drawing surface and is clipped. -/
theorem c9_label_never_repositioned (displayWidth x1 y1 textWidth : ℚ) :
    (labelRect displayWidth x1 y1 textWidth).top = y1 - labelHeight displayWidth ∧
    (y1 < labelHeight displayWidth →
      (labelRect displayWidth x1 y1 textWidth).top < 0) := by
  refine ⟨rfl, fun h => ?_⟩
  show y1 - labelHeight displayWidth < 0
  linarith

/-- Claim C9, witness for `c9_label_never_repositioned` at a box
touching the surface top on a wide display. -/
theorem c9_label_never_repositioned_witness :
    (0 : ℚ) < labelHeight 500 ∧ (labelRect 500 10 0 60).top < 0 :=
  ⟨by norm_num [labelHeight],
    (c9_label_never_repositioned 500 10 0 60).2 (by norm_num [labelHeight])⟩

/-- Claim C10: the results panel's average confidence is 0 for the empty
detection list and the arithmetic mean of the confidences for every
non-empty list. -/
theorem c10_avg_confidence :
    avgConfidence [] = 0 ∧
    ∀ ds : List Detection, ds ≠ [] →
      avgConfidence ds = (ds.map (fun d => d.confidence)).sum / (ds.length : ℚ) := by
  constructor
  · rfl
  · intro ds hds
    unfold avgConfidence
    rw [if_pos (List.length_pos.mpr hds), foldl_add_confidence, zero_add]

/-- Claim C10, witness for `c10_avg_confidence` on a concrete two-element
list. -/
theorem c10_avg_confidence_witness :
    c10Dets ≠ [] ∧
    avgConfidence c10Dets =
      (c10Dets.map (fun d => d.confidence)).sum / (c10Dets.length : ℚ) :=
  ⟨by simp [c10Dets], c10_avg_confidence.2 c10Dets (by simp [c10Dets])⟩

end DiuId
